import Mathlib

/-!
Verification of the page-classification and document-segmentation pipeline of the
TradeDiscrepancyFinder repository.  The development shallowly embeds the three main
pipeline variants of the repository:

* `IntelligentFormSplitter`  — src/server/intelligentFormSplitter.py
* `FastDocumentAnalyzer`     — src/server/fastDocumentAnalyzer.py
* `PreciseDocumentAnalyzer`  — src/server/preciseDocumentAnalyzer.py

Texts are embedded as `List Char`.  Confidences are Python floats built from
constants with at most two decimals; they are embedded as natural numbers in
thousandths (`0.95 ↦ 950`), which is exact for every operation the pipelines
perform on them (fixed increments of `0.05`/`0.02`, caps, `max`, and one `* 0.9`
scaling that stays integral on the multiples of ten the pipelines produce).
The word-overlap similarity ratio of fastDocumentAnalyzer.py is kept as `ℚ`.  The external text-acquisition
backend (PyMuPDF / OCR) is out of scope, so the pipelines are modelled from the
point where a list of per-page raw texts is available, exactly as in the sources.
-/

/-! ## Shared utilities: lower-casing, substring containment, whitespace splitting -/

/-- Python `str.lower()` restricted to the ASCII range used by the sources. -/
def lowerL (t : List Char) : List Char := t.map Char.toLower

/-- Python whitespace characters matched by `\s` and `str.split()` on ASCII text. -/
def isPySpace (c : Char) : Bool :=
  c == ' ' || c == '\t' || c == '\n' || c == '\r' || c == '\x0b' || c == '\x0c'

/-- Python substring containment `needle in hay` for strings. -/
def containsSub (needle : List Char) : List Char → Bool
  | [] => needle.isEmpty
  | c :: rest => needle.isPrefixOf (c :: rest) || containsSub needle rest

/-- Python `str.split()`: split on runs of whitespace, dropping empty pieces. -/
def splitWs (cs : List Char) : List (List Char) :=
  (cs.foldr
    (fun c (acc : List (List Char)) =>
      if isPySpace c then [] :: acc
      else
        match acc with
        | [] => [[c]]
        | w :: ws => (c :: w) :: ws)
    []).filter (fun w => !w.isEmpty)

/-- Python `' '.join(text.split())`, the whitespace normalization used before
classification in fastDocumentAnalyzer.py and preciseDocumentAnalyzer.py. -/
def normalizeWs (t : List Char) : List Char :=
  List.intercalate " ".toList (splitWs t)

/-- Python `min` over a list of page numbers (the sources only apply it to
non-empty lists; `0` stands for the unreachable empty case). -/
def listMin : List Nat → Nat
  | [] => 0
  | h :: t => t.foldl Nat.min h

/-- Python `max` over a list of page numbers. -/
def listMax : List Nat → Nat
  | [] => 0
  | h :: t => t.foldl Nat.max h

/-- Python page-range formatting `f"Page {p}"` for a single page and
`f"Pages {min}-{max}"` otherwise, shared verbatim by all three sources. -/
def rangeStr (page_numbers : List Nat) : String :=
  if page_numbers.length = 1 then "Page " ++ toString (page_numbers.headD 0)
  else "Pages " ++ toString (listMin page_numbers) ++ "-" ++ toString (listMax page_numbers)

/-- Python truncation `t[:n] + ('...' if len(t) > n else '')` applied to the
combined text of a record before output. -/
def truncText (n : Nat) (t : List Char) : List Char :=
  if n < t.length then t.take n ++ "...".toList else t

/-- Python format `{n:02d}` for the small counters used in document labels. -/
def pad2 (n : Nat) : String :=
  if n < 10 then "0" ++ toString n else toString n

/-! ## Identifier-extraction regular expressions

The three identifier patterns shared (up to one bound) by
`fastDocumentAnalyzer.extract_document_numbers` and
`preciseDocumentAnalyzer.extract_document_numbers`:

* `(?:no|number|ref)[.:\s]+([a-z0-9/\-]{3,15})`  (precise uses `{3,12}`)
* `([a-z]{2,4}[-_/]\d{3,8})`
* `(\d{4,8}[-_/][a-z0-9]{2,8})`

`re.findall` semantics: scan left to right, take the leftmost match at each
position, collect the capture, resume after the match.  In each pattern every
adjacent pair of character classes is disjoint and the literal alternatives
`no`/`number`/`ref` are pairwise exclusive at any given position, so greedy
matching without backtracking is exact. -/

/-- Characters of the class `[.:\s]`. -/
def isSepDotColonWs (c : Char) : Bool := c == '.' || c == ':' || isPySpace c

/-- Characters of the class `[a-z0-9/\-]`. -/
def isCapChar (c : Char) : Bool :=
  ('a' ≤ c && c ≤ 'z') || ('0' ≤ c && c ≤ '9') || c == '-' || c == '/'

/-- Characters of the class `[a-z]`. -/
def isLowerAZ (c : Char) : Bool := 'a' ≤ c && c ≤ 'z'

/-- Characters of the class `\d` on ASCII text. -/
def isDigitC (c : Char) : Bool := '0' ≤ c && c ≤ '9'

/-- Characters of the class `[-_/]`. -/
def isSepDash (c : Char) : Bool := c == '-' || c == '_' || c == '/'

/-- Characters of the class `[a-z0-9]`. -/
def isAlnumLower (c : Char) : Bool := isLowerAZ c || isDigitC c

/-- Match one of the literal alternatives `no|number|ref` at the head of the
input, returning the remainder.  The alternatives are mutually exclusive at any
position, so first-match order equals Python alternation order. -/
def matchKey (cs : List Char) : Option (List Char) :=
  if "no".toList.isPrefixOf cs then some (cs.drop 2)
  else if "number".toList.isPrefixOf cs then some (cs.drop 6)
  else if "ref".toList.isPrefixOf cs then some (cs.drop 3)
  else none

/-- Match `(?:no|number|ref)[.:\s]+([a-z0-9/\-]{3,maxCap})` at the head of the
input; on success return the capture and the remainder after the match. -/
def matchP1 (maxCap : Nat) (cs : List Char) : Option (List Char × List Char) :=
  match matchKey cs with
  | none => none
  | some rest =>
    let seps := rest.takeWhile isSepDotColonWs
    if seps.isEmpty then none
    else
      let body := rest.drop seps.length
      let cap := (body.takeWhile isCapChar).take maxCap
      if 3 ≤ cap.length then some (cap, body.drop cap.length) else none

/-- Match `[a-z]{2,4}[-_/]\d{3,8}` at the head of the input. -/
def matchP2 (cs : List Char) : Option (List Char × List Char) :=
  let ls := cs.takeWhile isLowerAZ
  if 2 ≤ ls.length && ls.length ≤ 4 then
    match cs.drop ls.length with
    | [] => none
    | s :: rest2 =>
      if isSepDash s then
        let run := rest2.takeWhile isDigitC
        if 3 ≤ run.length then
          let ds := run.take 8
          some (ls ++ s :: ds, rest2.drop ds.length)
        else none
      else none
  else none

/-- Match `\d{4,8}[-_/][a-z0-9]{2,8}` at the head of the input. -/
def matchP3 (cs : List Char) : Option (List Char × List Char) :=
  let ds := cs.takeWhile isDigitC
  if 4 ≤ ds.length && ds.length ≤ 8 then
    match cs.drop ds.length with
    | [] => none
    | s :: rest2 =>
      if isSepDash s then
        let run := rest2.takeWhile isAlnumLower
        if 2 ≤ run.length then
          let tail := run.take 8
          some (ds ++ s :: tail, rest2.drop tail.length)
        else none
      else none
  else none

/-- One left-to-right non-overlapping `re.findall` scan with matcher `m`; the
fuel argument (instantiated with the text length) dominates the number of scan
steps, since every successful match consumes at least one character. -/
def scanFor (m : List Char → Option (List Char × List Char)) :
    Nat → List Char → List (List Char)
  | 0, _ => []
  | _ + 1, [] => []
  | fuel + 1, c :: rest =>
    match m (c :: rest) with
    | some (cap, remaining) => cap :: scanFor m fuel remaining
    | none => scanFor m fuel rest

/-- All captures of one pattern over a text, in scan order. -/
def findallCaps (m : List Char → Option (List Char × List Char))
    (cs : List Char) : List (List Char) :=
  scanFor m cs.length cs

/-- Definition following the spec words (§4.3 IdentifierExtractor): apply the
three reference-number regexes (first pattern bound `{3,15}`) to the
lower-cased text and return the set of all distinct matches, represented as the
duplicate-free list of captures in first-occurrence order. -/
def identifierContract (text : List Char) : List (List Char) :=
  let tl := lowerL text
  (findallCaps (matchP1 15) tl ++ findallCaps matchP2 tl ++ findallCaps matchP3 tl).dedup

/-! ## intelligentFormSplitter.py -/

namespace IntelligentFormSplitter

/-- The classification pattern table of
`intelligentFormSplitter.classify_document_type`: keyword list, document type,
base confidence. -/
def classification_patterns : List (List String × String × ℕ) :=
  [ (["certificate of weight", "weight certificate", "gross weight", "net weight",
      "cargo weight"], ("Certificate of Weight", 950)),
    (["vessel certificate", "vessel voyage", "flag / nationality", "imo no",
      "carrying vessel"], ("Vessel Certificate", 950)),
    (["commercial invoice", "invoice no", "invoice date", "beneficiary",
      "proforma invoice"], ("Commercial Invoice", 900)),
    (["bill of lading", "b/l no", "shipper", "consignee", "port of loading"],
      ("Bill of Lading", 900)),
    (["certificate of origin", "country of origin", "origin certificate"],
      ("Certificate of Origin", 900)),
    (["letter of credit", "l/c number", "documentary credit", "applicant"],
      ("Letter of Credit", 900)),
    (["packing list", "packing", "packages", "cartons", "quantity"],
      ("Packing List", 800)),
    (["insurance certificate", "insurance policy", "coverage", "insured"],
      ("Insurance Certificate", 800)),
    (["inspection certificate", "quality certificate", "inspection", "tested"],
      ("Inspection Certificate", 800)),
    (["bill of exchange", "draft", "exchange", "drawn on"],
      ("Bill of Exchange", 700)),
    (["trade", "finance", "document", "international"],
      ("Trade Finance Document", 600)) ]

/-- `intelligentFormSplitter.classify_document_type`: score every pattern row by
keyword-match count, boost `0.05` (= 50 thousandths) per extra match capped at
`0.99`, keep the strictly best score; fallback
`("Trade Finance Document", 0.6)`. -/
def classify_document_type (text : List Char) : String × ℕ :=
  let text_lower := lowerL text
  classification_patterns.foldl
    (fun (best : String × ℕ) p =>
      let nMatches : ℕ := (p.1.filter (fun kw => containsSub kw.toList text_lower)).length
      if 0 < nMatches then
        let confidence := min (p.2.2 + (nMatches - 1) * 50) 990
        if best.2 < confidence then (p.2.1, confidence) else best
      else best)
    ("Trade Finance Document", 600)

/-- One classified page of `group_pages_by_document_type` (the per-page dict
built in its extraction loop). -/
structure PageData where
  page_number : Nat
  text : List Char
  document_type : String
  confidence : ℕ
  text_length : Nat
deriving DecidableEq, Inhabited

/-- One group of consecutive same-type pages (the `current_group` dict). -/
structure Group where
  document_type : String
  pages : List PageData
  confidence : ℕ
deriving DecidableEq, Inhabited

/-- The per-page extraction loop of `group_pages_by_document_type`, taking the
page texts delivered by `extract_text_from_page` (external text acquisition):
pages with fewer than 20 characters are skipped, the rest are classified. -/
def mkPageData (texts : List (List Char)) : List PageData :=
  (texts.enum.filter (fun it => !(it.2.length < 20))).map
    (fun it =>
      let c := classify_document_type it.2
      { page_number := it.1 + 1, text := it.2, document_type := c.1,
        confidence := c.2, text_length := it.2.length })

/-- Start a new `current_group` from one page. -/
def initGroup (pd : PageData) : Group :=
  { document_type := pd.document_type, pages := [pd], confidence := pd.confidence }

/-- Add a page to the current group, keeping the maximum confidence. -/
def addPage (g : Group) (pd : PageData) : Group :=
  { g with pages := g.pages ++ [pd],
           confidence := max g.confidence pd.confidence }

/-- The grouping loop of `group_pages_by_document_type`: consecutive pages of
the same document type are merged, a type change closes the current group. -/
def groupLoop : Option Group → List PageData → List Group
  | none, [] => []
  | some g, [] => [g]
  | none, pd :: rest => groupLoop (some (initGroup pd)) rest
  | some g, pd :: rest =>
    if g.document_type = pd.document_type then
      groupLoop (some (addPage g pd)) rest
    else
      g :: groupLoop (some (initGroup pd)) rest

/-- The page-break marker joining the texts of a group. -/
def pageBreak : List Char := "\n\n--- PAGE BREAK ---\n\n".toList

/-- One output record of `group_pages_by_document_type`.  The Python dict also
repeats these values under display aliases (`formType`, `page_numbers`, the
`extractedFields` map, `fullText`) and two constant strings
(`processingMethod`, `status`); those duplicates carry no further data and are
not repeated here.  `now` is the wall-clock sample `int(time.time() * 1000)`
taken when the record is built. -/
structure DetectedForm where
  id : String
  form_type : String
  confidence : ℕ
  pages : List Nat
  page_range : String
  extracted_text : List Char
  text_length : Nat
deriving DecidableEq, Inhabited

/-- Build the final record for group number `i` (0-based), with clock sample `now`. -/
def buildForm (now : Nat) (i : Nat) (g : Group) : DetectedForm :=
  let combined := List.intercalate pageBreak (g.pages.map (fun p => p.text))
  let page_numbers := g.pages.map (fun p => p.page_number)
  { id := "form_" ++ toString (i + 1) ++ "_" ++ toString now,
    form_type := g.document_type,
    confidence := g.confidence,
    pages := page_numbers,
    page_range := rangeStr page_numbers,
    extracted_text := combined,
    text_length := combined.length }

/-- `group_pages_by_document_type` (success path): classify and filter pages,
group consecutive pages of equal type, convert the groups to records. -/
def group_pages_by_document_type (now : Nat) (texts : List (List Char)) :
    List DetectedForm :=
  (groupLoop none (mkPageData texts)).enum.map (fun ig => buildForm now ig.1 ig.2)

/-- The id-less projection of a record, used to state determinism modulo the
clock-derived `id` field. -/
structure FormCore where
  form_type : String
  confidence : ℕ
  pages : List Nat
  page_range : String
  extracted_text : List Char
  text_length : Nat
deriving DecidableEq, Inhabited

/-- Forget the clock-derived `id` field of a record. -/
def stripId (f : DetectedForm) : FormCore :=
  { form_type := f.form_type, confidence := f.confidence, pages := f.pages,
    page_range := f.page_range, extracted_text := f.extracted_text,
    text_length := f.text_length }

/-- Result of the whole `group_pages_by_document_type` entry point, whose body
is wrapped in `try/except`: the `except` arm returns a `status: "error"` dict
with the exception text instead of propagating. -/
inductive SplitterResult
  | success (total_pages : Nat) (detected_forms : List DetectedForm)
      (document_count : Nat) (message : String)
  | failure (error : String) (message : String)
deriving DecidableEq

/-- Minimal model of the PyMuPDF document handle as
`group_pages_by_document_type` uses it: the collaborator delivers the per-page
texts, and any attribute access after `close()` raises
`ValueError("document closed")`. -/
structure PdfDoc where
  page_texts : List (List Char)
  is_closed : Bool

/-- `doc.close()`. -/
def PdfDoc.close (doc : PdfDoc) : PdfDoc := { doc with is_closed := true }

/-- `doc.page_count`, which raises on a closed document. -/
def PdfDoc.page_count (doc : PdfDoc) : Except String Nat :=
  if doc.is_closed then Except.error "document closed"
  else Except.ok doc.page_texts.length

/-- The `try/except` wrapper of `group_pages_by_document_type` over the opened
document (or the exception raised opening or reading it).  The source closes
the document at line 164 and then reads `doc.page_count` twice while building
the success dict (lines 168 and 172); the first read raises
`ValueError("document closed")` inside the `try`, so the `except` arm turns
even a fully processed document into the `status: "error"` dict.  The success
constructor below is the source's dict literal, reachable only if the reads
happened on an open document. -/
def group_pages_entry (now : Nat) (input : Except String PdfDoc) : SplitterResult :=
  match input with
  | .error e => .failure e ("Failed to process document: " ++ e)
  | .ok doc =>
    let forms := group_pages_by_document_type now doc.page_texts
    let closed := doc.close
    match closed.page_count with
    | .error e => .failure e ("Failed to process document: " ++ e)
    | .ok total_pages =>
      match closed.page_count with
      | .error e => .failure e ("Failed to process document: " ++ e)
      | .ok tp2 =>
        .success total_pages forms forms.length
          ("Successfully grouped " ++ toString tp2 ++ " pages into " ++
            toString forms.length ++ " documents")

end IntelligentFormSplitter

/-! ## fastDocumentAnalyzer.py -/

namespace FastDocumentAnalyzer

/-- The document-type table of `fastDocumentAnalyzer.classify_document_type`
(first matching row wins). -/
def doc_types : List (List String × String) :=
  [ (["letter of credit", "documentary credit", "l/c", "issuing bank"], "Letter of Credit"),
    (["commercial invoice", "invoice", "seller", "buyer"], "Commercial Invoice"),
    (["bill of lading", "b/l", "shipper", "consignee", "vessel"], "Bill of Lading"),
    (["certificate of origin", "country of origin", "chamber"], "Certificate of Origin"),
    (["packing list", "gross weight", "net weight", "packages"], "Packing List"),
    (["insurance", "policy", "coverage", "marine insurance"], "Insurance Certificate"),
    (["inspection", "quality", "test", "laboratory"], "Inspection Certificate"),
    (["bill of exchange", "draft", "drawer", "drawee"], "Bill of Exchange"),
    (["guarantee", "guarantor", "performance"], "Bank Guarantee"),
    (["transport", "freight", "shipping", "cargo"], "Transport Document"),
    (["customs", "declaration", "tariff"], "Customs Declaration"),
    (["certificate", "certification"], "Certificate"),
    (["receipt", "acknowledgment"], "Receipt") ]

/-- `fastDocumentAnalyzer.classify_document_type`: first row with any keyword
contained in the lower-cased text; otherwise `"Unknown"`.  No confidence. -/
def classify_document_type (text : List Char) : String :=
  let text_lower := lowerL text
  match doc_types.find? (fun p => p.1.any (fun kw => containsSub kw.toList text_lower)) with
  | some p => p.2
  | none => "Unknown"

/-- `fastDocumentAnalyzer.extract_document_numbers`: the three identifier
regexes with first-pattern bound `{3,15}`, collected as a set. -/
def extract_document_numbers (text : List Char) : List (List Char) :=
  let tl := lowerL text
  (findallCaps (matchP1 15) tl ++ findallCaps matchP2 tl ++ findallCaps matchP3 tl).dedup

/-- The literal-alternation rows of `new_doc_patterns` in
`detect_document_boundary` (every row except the `no|number|ref` one is a plain
alternation of literals, so `re.search` is substring containment of some
alternative). -/
def new_doc_literal_patterns : List (List String) :=
  [ ["letter of credit", "commercial invoice", "bill of lading", "certificate"],
    ["packing list", "insurance", "inspection", "quality"],
    ["bill of exchange", "draft", "guarantee", "declaration", "receipt"],
    ["customs", "freight", "transport", "shipping"],
    ["certificate", "invoice", "bill", "document"],
    ["issued", "date", "to whom"],
    ["we hereby", "this is to", "in accordance"],
    ["certify that", "declare that", "confirm that"],
    ["the undersigned", "it is certified"],
    ["amount", "value", "quantity", "weight"],
    ["shipper", "consignee", "beneficiary", "applicant"],
    ["origin", "destination", "port", "vessel"] ]

/-- `re.search` of the remaining row `(no[.:\s]|number[.:\s]|ref[.:\s])`: some
position carries one of the key literals immediately followed by one `[.:\s]`
character. -/
def hasKeySepAux : Nat → List Char → Bool
  | 0, _ => false
  | _ + 1, [] => false
  | fuel + 1, c :: rest =>
    (match matchKey (c :: rest) with
     | some after =>
       match after with
       | s :: _ => isSepDotColonWs s
       | [] => false
     | none => false) || hasKeySepAux fuel rest

/-- `any(re.search(pattern, current_text) for pattern in new_doc_patterns)`. -/
def hasDocIndicators (cs : List Char) : Bool :=
  new_doc_literal_patterns.any (fun alts => alts.any (fun lit => containsSub lit.toList cs))
    || hasKeySepAux cs.length cs

/-- `fastDocumentAnalyzer.calculate_text_similarity`: word-level Jaccard
similarity (`len(words1 ∩ words2) / len(words1 ∪ words2)`), `0` when either
word set is empty. -/
def calculate_text_similarity (t1 t2 : List Char) : ℚ :=
  let words1 := (splitWs (lowerL t1)).dedup
  let words2 := (splitWs (lowerL t2)).dedup
  if words1.isEmpty || words2.isEmpty then 0
  else
    let inter := words1.filter (fun w => words2.contains w)
    let total := (words1 ++ words2).dedup
    if total.isEmpty then 0 else (inter.length : ℚ) / (total.length : ℚ)

/-- One page dict of `analyze_real_document` (after whitespace normalization
and the `len(text) > 5` filter). -/
structure FastPage where
  page_number : Nat
  text : List Char
  text_length : Nat
deriving DecidableEq, Inhabited

/-- `fastDocumentAnalyzer.detect_document_boundary`, in source order: type
change to a known type; document indicators with similarity below `0.3`;
disjoint non-empty identifier sets; similarity below `0.15` with indicators. -/
def detect_document_boundary (prev_page current_page : FastPage) : Bool :=
  let prev_text := lowerL prev_page.text
  let current_text := lowerL current_page.text
  let prev_doc_type := classify_document_type prev_text
  let current_doc_type := classify_document_type current_text
  if prev_doc_type ≠ current_doc_type ∧ current_doc_type ≠ "Unknown" then true
  else
    let has_doc_indicators := hasDocIndicators current_text
    let similarity := calculate_text_similarity prev_text current_text
    if has_doc_indicators ∧ similarity < 3/10 then true
    else
      let prev_numbers := extract_document_numbers prev_text
      let current_numbers := extract_document_numbers current_text
      if (!prev_numbers.isEmpty && !current_numbers.isEmpty) &&
          !(prev_numbers.any (fun num => current_numbers.contains num)) then true
      else if similarity < 15/100 ∧ has_doc_indicators then true
      else false

/-- The per-run type-keyword table of `calculate_document_confidence`. -/
def type_keywords : List (String × List String) :=
  [ ("Letter of Credit", ["credit", "issuing bank", "beneficiary", "applicant"]),
    ("Commercial Invoice", ["invoice", "seller", "buyer", "amount"]),
    ("Bill of Lading", ["lading", "shipper", "consignee", "vessel"]),
    ("Certificate of Origin", ["origin", "country", "manufacturer"]),
    ("Packing List", ["packing", "weight", "packages"]),
    ("Insurance Certificate", ["insurance", "policy", "coverage"]),
    ("Inspection Certificate", ["inspection", "quality", "test"]),
    ("Bill of Exchange", ["exchange", "drawer", "drawee"]) ]

/-- `fastDocumentAnalyzer.calculate_document_confidence`: base `0.7`, boost
`0.05` per matched type keyword capped at `0.25`, result capped at `0.95`
(thousandths). -/
def calculate_document_confidence (text : List Char) (doc_type : String) : ℕ :=
  let text_lower := lowerL text
  let base : ℕ := 700
  match type_keywords.find? (fun p => p.1 == doc_type) with
  | some p =>
    let keyword_matches := (p.2.filter (fun kw => containsSub kw.toList text_lower)).length
    min (base + min (keyword_matches * 50) 250) 950
  | none => min base 950

/-- One output record of `create_document_from_pages`. -/
structure FastDoc where
  form_type : String
  document_type : String
  confidence : ℕ
  pages : List Nat
  page_range : String
  extracted_text : List Char
  text_length : Nat
deriving DecidableEq, Inhabited

/-- `fastDocumentAnalyzer.create_document_from_pages` (the `pages` argument is
never empty at its call sites; the empty dict returned for `[]` is modelled by
the same record shape computed on no pages).  The identifier picked by
`list(doc_numbers)[0]` depends on Python set iteration order; it is modelled as
the first capture in scan order. -/
def create_document_from_pages (pages : List FastPage) : FastDoc :=
  let combined_text := List.intercalate " ".toList (pages.map (fun p => p.text))
  let doc_type := classify_document_type combined_text
  let doc_numbers := extract_document_numbers combined_text
  let doc_type_with_id :=
    match doc_numbers.head? with
    | some identifier => doc_type ++ " (" ++ String.mk (identifier.take 10) ++ ")"
    | none => doc_type
  let confidence := calculate_document_confidence combined_text doc_type
  let page_numbers := pages.map (fun p => p.page_number)
  { form_type := doc_type_with_id,
    document_type := doc_type,
    confidence := confidence,
    pages := page_numbers,
    page_range := rangeStr page_numbers,
    extracted_text := truncText 1000 combined_text,
    text_length := combined_text.length }

/-- The grouping loop of `identify_document_boundaries`: close the accumulated
group whenever `detect_document_boundary` fires between consecutive pages. -/
def idbAux (prev : FastPage) (acc : List FastPage) :
    List FastPage → List (List FastPage)
  | [] => [acc]
  | p :: rest =>
    if detect_document_boundary prev p then acc :: idbAux p [p] rest
    else idbAux p (acc ++ [p]) rest

/-- `fastDocumentAnalyzer.identify_document_boundaries`. -/
def identify_document_boundaries : List FastPage → List FastDoc
  | [] => []
  | p :: rest => (idbAux p [p] rest).map create_document_from_pages

/-- The page-extraction loop of `analyze_real_document`: normalize whitespace
and keep only pages with more than five characters. -/
def mkFastPages (texts : List (List Char)) : List FastPage :=
  ((texts.enum.map (fun it => (it.1, normalizeWs it.2))).filter
      (fun it => 5 < it.2.length)).map
    (fun it => { page_number := it.1 + 1, text := it.2, text_length := it.2.length })

/-- Result dict of `analyze_real_document`; the `except` arm yields a dict with
an `error` key and empty `detected_forms`. -/
inductive FastResult
  | success (total_pages : Nat) (detected_forms : List FastDoc) (document_count : Nat)
  | failure (error : String)
deriving DecidableEq

/-- The `try/except` wrapper of `analyze_real_document` over the outcome of the
PDF/OCR collaborator. -/
def analyze_real_document : Except String (List (List Char)) → FastResult
  | .ok texts =>
    let documents := identify_document_boundaries (mkFastPages texts)
    .success texts.length documents documents.length
  | .error e => .failure e

end FastDocumentAnalyzer

/-! ## preciseDocumentAnalyzer.py -/

namespace PreciseDocumentAnalyzer

/-- The classification pattern table of
`preciseDocumentAnalyzer.classify_document_content`. -/
def patterns : List (List String × String × ℕ) :=
  [ (["letter of credit", "documentary credit", "l/c no", "issuing bank",
      "beneficiary"], ("Letter of Credit", 950)),
    (["commercial invoice", "invoice no", "proforma", "seller", "buyer"],
      ("Commercial Invoice", 900)),
    (["bill of lading", "b/l no", "ocean bill", "shipper", "consignee"],
      ("Bill of Lading", 900)),
    (["certificate of origin", "country of origin", "chamber of commerce"],
      ("Certificate of Origin", 900)),
    (["packing list", "package list", "gross weight", "net weight"],
      ("Packing List", 850)),
    (["insurance certificate", "marine insurance", "policy no"],
      ("Insurance Certificate", 850)),
    (["inspection certificate", "quality certificate", "survey"],
      ("Inspection Certificate", 800)),
    (["bill of exchange", "draft", "drawer", "drawee"],
      ("Bill of Exchange", 850)),
    (["bank guarantee", "performance guarantee", "guarantor"],
      ("Bank Guarantee", 800)),
    (["customs declaration", "export declaration"],
      ("Customs Declaration", 800)),
    (["transport document", "freight forwarder", "multimodal"],
      ("Transport Document", 750)),
    (["weight certificate", "weighing certificate"],
      ("Weight Certificate", 750)),
    (["health certificate", "sanitary certificate"],
      ("Health Certificate", 750)),
    (["fumigation certificate", "phytosanitary"],
      ("Fumigation Certificate", 750)),
    (["analysis certificate", "laboratory"],
      ("Analysis Certificate", 700)),
    (["certificate", "certified"], ("Certificate", 600)),
    (["receipt", "acknowledgment"], ("Receipt", 500)) ]

/-- `preciseDocumentAnalyzer.classify_document_content`: boost `0.02` (= 20
thousandths) per extra keyword match capped at `0.98`, strict best; fallback
`("Trade Finance Document", 0.3)`. -/
def classify_document_content (text : List Char) : String × ℕ :=
  let text_lower := lowerL text
  patterns.foldl
    (fun (best : String × ℕ) p =>
      let nMatches : ℕ := (p.1.filter (fun kw => containsSub kw.toList text_lower)).length
      if 0 < nMatches then
        let confidence := min (p.2.2 + (nMatches - 1) * 20) 980
        if best.2 < confidence then (p.2.1, confidence) else best
      else best)
    ("Trade Finance Document", 300)

/-- `preciseDocumentAnalyzer.extract_document_numbers`: the identifier regexes
with first-pattern bound `{3,12}`; `list(set(numbers))` is modelled as the
duplicate-free capture list. -/
def extract_document_numbers (text : List Char) : List (List Char) :=
  let tl := lowerL text
  (findallCaps (matchP1 12) tl ++ findallCaps matchP2 tl ++ findallCaps matchP3 tl).dedup

/-- The page-info dict of `analyze_page_content` (text acquisition external;
whitespace normalization and classification as in the source). -/
structure PageInfo where
  type : String
  text : List Char
  confidence : ℕ
  page_num : Nat
deriving DecidableEq, Inhabited

/-- `preciseDocumentAnalyzer.analyze_page_content` from the acquired raw text. -/
def analyze_page_content (page_num : Nat) (raw : List Char) : PageInfo :=
  let text := normalizeWs raw
  let c := classify_document_content text
  { type := c.1, text := text, confidence := c.2, page_num := page_num }

/-- The `current_doc` accumulator dict of `analyze_document_precisely`. -/
structure CurrentDoc where
  type : String
  pages : List Nat
  texts : List (List Char)
  confidence : ℕ
deriving DecidableEq, Inhabited

/-- `preciseDocumentAnalyzer.should_start_new_document`, in source order: no
current document; type change with confidence above `0.7`; non-empty disjoint
identifier sets; more than five accumulated pages with confidence above `0.8`
(thresholds `0.7`, `0.8` in thousandths). -/
def should_start_new_document (current_doc : Option CurrentDoc)
    (page_info : PageInfo) : Bool :=
  match current_doc with
  | none => true
  | some d =>
    if page_info.type ≠ d.type ∧ 700 < page_info.confidence then true
    else
      let current_numbers := extract_document_numbers (List.intercalate " ".toList d.texts)
      let page_numbers := extract_document_numbers page_info.text
      if (!current_numbers.isEmpty && !page_numbers.isEmpty) &&
          !(current_numbers.any (fun num => page_numbers.contains num)) then true
      else if 5 < d.pages.length ∧ 800 < page_info.confidence then true
      else false

/-- One output record of `finalize_document` / `apply_intelligent_splitting`. -/
structure FinalDoc where
  form_type : String
  document_type : String
  confidence : ℕ
  pages : List Nat
  page_range : String
  extracted_text : List Char
  text_length : Nat
deriving DecidableEq, Inhabited

/-- `preciseDocumentAnalyzer.finalize_document`; `doc_numbers[0]` of
`list(set(...))` is modelled as the first capture in scan order. -/
def finalize_document (doc_info : CurrentDoc) (doc_id : Nat) : FinalDoc :=
  let combined_text := List.intercalate " ".toList doc_info.texts
  let doc_numbers := extract_document_numbers combined_text
  let form_type :=
    match doc_numbers.head? with
    | some identifier => doc_info.type ++ " (" ++ String.mk (identifier.take 8) ++ ")"
    | none => doc_info.type ++ " (SET" ++ pad2 doc_id ++ ")"
  { form_type := form_type,
    document_type := doc_info.type,
    confidence := doc_info.confidence,
    pages := doc_info.pages,
    page_range := rangeStr doc_info.pages,
    extracted_text := truncText 800 combined_text,
    text_length := combined_text.length }

/-- Start a fresh `current_doc` from one page. -/
def newDoc (info : PageInfo) (pn : Nat) : CurrentDoc :=
  { type := info.type, pages := [pn], texts := [info.text],
    confidence := info.confidence }

/-- The main loop of `analyze_document_precisely`: decide a boundary before
each page, finalizing the running document with an incrementing counter. -/
def segmentLoop (cur : Option CurrentDoc) (counter : Nat) :
    List (Nat × List Char) → List FinalDoc
  | [] =>
    match cur with
    | none => []
    | some d => [finalize_document d counter]
  | (pn, raw) :: rest =>
    let info := analyze_page_content pn raw
    if should_start_new_document cur info then
      match cur with
      | some d =>
        finalize_document d counter ::
          segmentLoop (some (newDoc info pn)) (counter + 1) rest
      | none => segmentLoop (some (newDoc info pn)) counter rest
    else
      match cur with
      | some d =>
        segmentLoop
          (some { d with pages := d.pages ++ [pn], texts := d.texts ++ [info.text],
                         confidence := max d.confidence info.confidence })
          counter rest
      | none => segmentLoop (some (newDoc info pn)) counter rest

/-- Python slicing `[pages[i:i+k] for i in range(0, len(pages), k)]`; the fuel
(instantiated with the list length) dominates the number of slices for `k ≥ 1`. -/
def chunksOf : Nat → Nat → List Nat → List (List Nat)
  | 0, _, _ => []
  | _ + 1, _, [] => []
  | fuel + 1, k, l => l.take k :: chunksOf fuel k (l.drop k)

/-- `preciseDocumentAnalyzer.apply_intelligent_splitting`: below 15 documents,
every document of more than three pages is cut into thirds, each part keeping
`0.9` of the confidence (`* 9 / 10` is exact on the multiples of ten produced
by the classifier). -/
def apply_intelligent_splitting (documents : List FinalDoc) : List FinalDoc :=
  if 15 ≤ documents.length then documents
  else
    (documents.map (fun d =>
      if 3 < d.pages.length then
        let chunk_size := max 1 (d.pages.length / 3)
        ((chunksOf d.pages.length chunk_size d.pages).enum).map (fun ic =>
          { form_type := d.document_type ++ " (PART" ++ toString (ic.1 + 1) ++ ")",
            document_type := d.document_type,
            confidence := d.confidence * 9 / 10,
            pages := ic.2,
            page_range := rangeStr ic.2,
            extracted_text :=
              ("Document part " ++ toString (ic.1 + 1) ++ " covering " ++
                rangeStr ic.2).toList,
            text_length := ic.2.length * 100 })
      else [d])).flatten

/-- The success path of `analyze_document_precisely` from the acquired page
texts: segment, then apply intelligent splitting when fewer than ten documents
were detected. -/
def analyze_document_precisely (texts : List (List Char)) : List FinalDoc :=
  let documents := segmentLoop none 1 (texts.enum.map (fun it => (it.1 + 1, it.2)))
  if documents.length < 10 then apply_intelligent_splitting documents
  else documents

end PreciseDocumentAnalyzer

/-! ## documentClassifier.py -/

namespace DocumentClassifier

/-- Case-insensitive literal prefix match (`re.IGNORECASE`); pattern literals
are given lower-cased. -/
def prefixI : List Char → List Char → Bool
  | [], _ => true
  | _ :: _, [] => false
  | a :: as_, b :: bs => (b.toLower == a) && prefixI as_ bs

/-- Python `str.strip()`. -/
def pyStrip (t : List Char) : List Char :=
  ((t.dropWhile isPySpace).reverse.dropWhile isPySpace).reverse

/-- Tokens of the search-only classification regexes in `document_patterns`:
case-insensitive literal, `\s+`, one `[:\s]` character, an optional literal
character, `\d+`. -/
inductive PTok
  | lit (s : String)
  | wsPlus
  | clsColonWs
  | optChar (c : Char)
  | digitPlus

/-- Match a token sequence at the head of the text.  Exact for the patterns of
`document_patterns`: every literal after `\s+` starts with a non-space
character, the class and `\d+` tokens close their patterns, and the optional
character is matched greedily with explicit fallback. -/
def matchPToks : List PTok → List Char → Option (List Char)
  | [], cs => some cs
  | .lit s :: toks, cs =>
    if prefixI s.toList cs then matchPToks toks (cs.drop s.length) else none
  | .wsPlus :: toks, cs =>
    let run := cs.takeWhile isPySpace
    if run.isEmpty then none else matchPToks toks (cs.drop run.length)
  | .clsColonWs :: toks, cs =>
    match cs with
    | c :: rest => if c == ':' || isPySpace c then matchPToks toks rest else none
    | [] => none
  | .optChar c :: toks, cs =>
    match cs with
    | d :: rest =>
      if d.toLower == c then
        match matchPToks toks rest with
        | some r => some r
        | none => matchPToks toks cs
      else matchPToks toks cs
    | [] => matchPToks toks cs
  | .digitPlus :: toks, cs =>
    let run := cs.takeWhile isDigitC
    if run.isEmpty then none else matchPToks toks (cs.drop run.length)

/-- `re.search` of a token pattern: some position of the text matches. -/
def searchPToks (toks : List PTok) : List Char → Bool
  | [] => (matchPToks toks []).isSome
  | c :: rest => (matchPToks toks (c :: rest)).isSome || searchPToks toks rest

/-- The `document_patterns` table of `DocumentClassifier.__init__`: document
type, search patterns, field names (insertion order preserved). -/
def document_patterns : List (String × List (List PTok) × List String) :=
  [ ("Commercial Invoice",
      ([[.lit "commercial", .wsPlus, .lit "invoice"],
        [.lit "invoice", .wsPlus, .lit "number"],
        [.lit "total", .wsPlus, .lit "amount"],
        [.lit "invoice", .wsPlus, .lit "date"],
        [.lit "seller", .clsColonWs],
        [.lit "buyer", .clsColonWs],
        [.lit "goods", .wsPlus, .lit "description"]],
       ["Invoice Number", "Date", "Amount", "Seller", "Buyer", "Description"])),
    ("Bill of Lading",
      ([[.lit "bill", .wsPlus, .lit "of", .wsPlus, .lit "lading"],
        [.lit "b/l", .wsPlus, .lit "number"],
        [.lit "vessel", .wsPlus, .lit "name"],
        [.lit "port", .wsPlus, .lit "of", .wsPlus, .lit "loading"],
        [.lit "port", .wsPlus, .lit "of", .wsPlus, .lit "discharge"],
        [.lit "shipper", .clsColonWs],
        [.lit "consignee", .clsColonWs]],
       ["B/L Number", "Vessel", "Loading Port", "Discharge Port", "Shipper",
        "Consignee"])),
    ("Certificate of Origin",
      ([[.lit "certificate", .wsPlus, .lit "of", .wsPlus, .lit "origin"],
        [.lit "country", .wsPlus, .lit "of", .wsPlus, .lit "origin"],
        [.lit "chamber", .wsPlus, .lit "of", .wsPlus, .lit "commerce"],
        [.lit "goods", .wsPlus, .lit "origin"],
        [.lit "export", .clsColonWs],
        [.lit "certified", .wsPlus, .lit "that"]],
       ["Certificate Number", "Country of Origin", "Goods Description",
        "Exporter"])),
    ("Packing List",
      ([[.lit "packing", .wsPlus, .lit "list"],
        [.lit "package", .wsPlus, .lit "list"],
        [.lit "gross", .wsPlus, .lit "weight"],
        [.lit "net", .wsPlus, .lit "weight"],
        [.lit "dimensions"],
        [.lit "package", .optChar 's', .wsPlus, .digitPlus]],
       ["Package Count", "Gross Weight", "Net Weight", "Dimensions"])),
    ("Insurance Certificate",
      ([[.lit "insurance", .wsPlus, .lit "certificate"],
        [.lit "policy", .wsPlus, .lit "number"],
        [.lit "insured", .wsPlus, .lit "amount"],
        [.lit "coverage"],
        [.lit "underwriter"]],
       ["Policy Number", "Insured Amount", "Coverage", "Underwriter"])),
    ("Multimodal Transport Document",
      ([[.lit "multimodal", .wsPlus, .lit "transport"],
        [.lit "mtd", .wsPlus, .lit "number"],
        [.lit "transport", .wsPlus, .lit "document"],
        [.lit "place", .wsPlus, .lit "of", .wsPlus, .lit "receipt"],
        [.lit "place", .wsPlus, .lit "of", .wsPlus, .lit "delivery"],
        [.lit "combined", .wsPlus, .lit "transport"],
        [.lit "final", .wsPlus, .lit "destination"],
        [.lit "carrier", .wsPlus, .lit "received"]],
       ["MTD Number", "Place of Receipt", "Place of Delivery", "Carrier",
        "Final Destination"])) ]

/-- `\s+` at the head, returning the remainder. -/
def matchWsPlus (cs : List Char) : Option (List Char) :=
  let run := cs.takeWhile isPySpace
  if run.isEmpty then none else some (cs.drop run.length)

/-- `[:\s]+` at the head, returning the remainder. -/
def matchColonWsPlus (cs : List Char) : Option (List Char) :=
  let run := cs.takeWhile (fun c => c == ':' || isPySpace c)
  if run.isEmpty then none else some (cs.drop run.length)

/-- `(?:no\.?|number)` at the head: the alternatives are mutually exclusive at
any position (second characters differ) and the optional dot is greedy-exact
because the following class `[:\s]` excludes the dot. -/
def matchNoDotOrNumber (cs : List Char) : Option (List Char) :=
  if prefixI "no.".toList cs then some (cs.drop 3)
  else if prefixI "no".toList cs then some (cs.drop 2)
  else if prefixI "number".toList cs then some (cs.drop 6)
  else none

/-- `(?:no\.?|#)` at the head. -/
def matchNoDotOrHash (cs : List Char) : Option (List Char) :=
  if prefixI "no.".toList cs then some (cs.drop 3)
  else if prefixI "no".toList cs then some (cs.drop 2)
  else
    match cs with
    | c :: rest => if c == '#' then some rest else none
    | [] => none

/-- Capture `([A-Z0-9\-\/]+)` under `IGNORECASE`: the maximal run of
letters, digits, dashes and slashes. -/
def capAlnumDash (cs : List Char) : Option (List Char) :=
  let run := cs.takeWhile (fun c => isCapChar c.toLower)
  if run.isEmpty then none else some run

/-- A `[\/\-\.]` date separator. -/
def isDateSep (c : Char) : Bool := c == '/' || c == '-' || c == '.'

/-- Capture `(\d{1,2}[\/\-\.]\d{1,2}[\/\-\.]\d{2,4})` at the head: the
two bounded runs must be followed by their separator (digits and separators
are disjoint, so runs longer than the bound fail here), the final run is
greedy up to four digits. -/
def capDate (cs : List Char) : Option (List Char) :=
  let d1 := cs.takeWhile isDigitC
  if 1 ≤ d1.length && d1.length ≤ 2 then
    match cs.drop d1.length with
    | s1 :: r1 =>
      if isDateSep s1 then
        let d2 := r1.takeWhile isDigitC
        if 1 ≤ d2.length && d2.length ≤ 2 then
          match r1.drop d2.length with
          | s2 :: r2 =>
            if isDateSep s2 then
              let d3 := (r2.takeWhile isDigitC).take 4
              if 2 ≤ d3.length then some (d1 ++ s1 :: (d2 ++ s2 :: d3))
              else none
            else none
          | [] => none
        else none
      else none
    | [] => none
  else none

/-- `(?:usd?[\s$]*)?` at the head: optional `usd?` then `[\s$]*`; exact
without backtracking because the following capture class `[\d,]` is disjoint
from `u`, `d`, whitespace and `$`. -/
def matchOptUsd (cs : List Char) : List Char :=
  if prefixI "usd".toList cs then
    (cs.drop 3).dropWhile (fun c => isPySpace c || c == '$')
  else if prefixI "us".toList cs then
    (cs.drop 2).dropWhile (fun c => isPySpace c || c == '$')
  else cs

/-- Capture `([\d,]+\.?\d*)` at the head. -/
def capAmount (cs : List Char) : Option (List Char) :=
  let run := cs.takeWhile (fun c => isDigitC c || c == ',')
  if run.isEmpty then none
  else
    match cs.drop run.length with
    | '.' :: r2 => some (run ++ '.' :: r2.takeWhile isDigitC)
    | _ => some run

/-- `invoice\s+(?:no\.?|number)[:\s]+([A-Z0-9\-\/]+)` at the head,
returning the capture. -/
def matchInvoiceNumber1 (cs : List Char) : Option (List Char) :=
  if prefixI "invoice".toList cs then
    (matchWsPlus (cs.drop 7)).bind fun r1 =>
      (matchNoDotOrNumber r1).bind fun r2 =>
        (matchColonWsPlus r2).bind capAlnumDash
  else none

/-- `inv\.?\s+(?:no\.?|#)[:\s]+([A-Z0-9\-\/]+)` at the head (`inv\.?` is
greedy-exact since `\s` excludes the dot). -/
def matchInvoiceNumber2 (cs : List Char) : Option (List Char) :=
  let after :=
    if prefixI "inv.".toList cs then some (cs.drop 4)
    else if prefixI "inv".toList cs then some (cs.drop 3)
    else none
  after.bind fun r0 =>
    (matchWsPlus r0).bind fun r1 =>
      (matchNoDotOrHash r1).bind fun r2 =>
        (matchColonWsPlus r2).bind capAlnumDash

/-- `date[:\s]+(\d{1,2}[\/\-\.]\d{1,2}[\/\-\.]\d{2,4})` at the head. -/
def matchDate1 (cs : List Char) : Option (List Char) :=
  if prefixI "date".toList cs then (matchColonWsPlus (cs.drop 4)).bind capDate
  else none

/-- `(\d{1,2}[\/\-\.]\d{1,2}[\/\-\.]\d{2,4})` at the head. -/
def matchDate2 (cs : List Char) : Option (List Char) := capDate cs

/-- `total[:\s]+(?:usd?[\s$]*)?([\d,]+\.?\d*)` at the head. -/
def matchAmount1 (cs : List Char) : Option (List Char) :=
  if prefixI "total".toList cs then
    (matchColonWsPlus (cs.drop 5)).bind fun r1 => capAmount (matchOptUsd r1)
  else none

/-- `amount[:\s]+(?:usd?[\s$]*)?([\d,]+\.?\d*)` at the head. -/
def matchAmount2 (cs : List Char) : Option (List Char) :=
  if prefixI "amount".toList cs then
    (matchColonWsPlus (cs.drop 6)).bind fun r1 => capAmount (matchOptUsd r1)
  else none

/-- `b\/l\s+(?:no\.?|number)[:\s]+([A-Z0-9\-\/]+)` at the head. -/
def matchBLNumber (cs : List Char) : Option (List Char) :=
  if prefixI "b/l".toList cs then
    (matchWsPlus (cs.drop 3)).bind fun r1 =>
      (matchNoDotOrNumber r1).bind fun r2 =>
        (matchColonWsPlus r2).bind capAlnumDash
  else none

/-- `mtd\s+(?:no\.?|number)[:\s]+([A-Z0-9\-\/]+)` at the head. -/
def matchMTDNumber (cs : List Char) : Option (List Char) :=
  if prefixI "mtd".toList cs then
    (matchWsPlus (cs.drop 3)).bind fun r1 =>
      (matchNoDotOrNumber r1).bind fun r2 =>
        (matchColonWsPlus r2).bind capAlnumDash
  else none

/-- `policy\s+(?:no\.?|number)[:\s]+([A-Z0-9\-\/]+)` at the head. -/
def matchPolicyNumber (cs : List Char) : Option (List Char) :=
  if prefixI "policy".toList cs then
    (matchWsPlus (cs.drop 6)).bind fun r1 =>
      (matchNoDotOrNumber r1).bind fun r2 =>
        (matchColonWsPlus r2).bind capAlnumDash
  else none

/-- `re.search` for a capture pattern: the capture of the leftmost matching
position. -/
def searchField (m : List Char → Option (List Char)) : List Char → Option (List Char)
  | [] => m []
  | c :: rest =>
    match m (c :: rest) with
    | some cap => some cap
    | none => searchField m rest

/-- The per-field capture patterns of `extract_fields`, in source order. -/
def field_patterns (field_name : String) : List (List Char → Option (List Char)) :=
  if field_name = "Invoice Number" then [matchInvoiceNumber1, matchInvoiceNumber2]
  else if field_name = "Date" then [matchDate1, matchDate2]
  else if field_name = "Amount" then [matchAmount1, matchAmount2]
  else if field_name = "B/L Number" then [matchBLNumber]
  else if field_name = "MTD Number" then [matchMTDNumber]
  else if field_name = "Policy Number" then [matchPolicyNumber]
  else []

/-- `DocumentClassifier.extract_fields`: the first matching pattern wins, its
capture is stripped; fields without patterns or without matches map to
`"Not found"`. -/
def extract_fields (text : List Char) (field_names : List String) :
    List (String × List Char) :=
  field_names.map (fun field_name =>
    let hit := (field_patterns field_name).foldl
      (fun (acc : Option (List Char)) m =>
        match acc with
        | some v => some v
        | none => searchField m text)
      none
    match hit with
    | some v => (field_name, pyStrip v)
    | none => (field_name, "Not found".toList))

/-- `DocumentClassifier.classify_document`: confidence is the fraction of a
type's patterns found in the text; a strictly better type wins (first wins
ties, dict iteration in insertion order); fallback
`("Unknown Document", 0.0)` with no fields. -/
def classify_document (text : List Char) :
    String × ℚ × List (String × List Char) :=
  document_patterns.foldl
    (fun (best : String × ℚ × List (String × List Char)) row =>
      let matched_patterns := (row.2.1.filter (fun p => searchPToks p text)).length
      if 0 < row.2.1.length then
        let confidence : ℚ := (matched_patterns : ℚ) / (row.2.1.length : ℚ)
        if best.2.1 < confidence then
          (row.1, confidence, extract_fields text row.2.2)
        else best
      else best)
    ("Unknown Document", 0, [])

/-- Result dict of `process_document`: the success dict, or the
`success: False` dict with its error string and the constant fallback fields. -/
inductive ClassifierResult
  | success (document_type : String) (confidence : ℚ)
      (extracted_fields : List (String × List Char)) (text_length : Nat)
      (processing_method : String)
  | failure (error : List Char) (document_type : String) (confidence : ℚ)
      (extracted_fields : List (String × List Char))

/-- `DocumentClassifier.extract_text_from_pdf` seen through its own
`try/except`: the PDF/OCR collaborator either delivers the accumulated page
text or raises; a raise becomes the `Error extracting text:` string and an
empty accumulation the `Error: No text content` string, so this function
itself never lets an exception escape. -/
def extract_text_from_pdf (outcome : Except String (List Char)) : List Char :=
  match outcome with
  | .ok full_text =>
    if pyStrip full_text = [] then
      "Error: No text content could be extracted from PDF".toList
    else full_text
  | .error e => ("Error extracting text: " ++ e).toList

/-- `DocumentClassifier.process_document`: the outer `.error` case is an
exception raised inside the `try` body and caught by its `except` arm; the
`.ok` case carries the collaborator outcome consumed by
`extract_text_from_pdf`.  `Error`-prefixed text short-circuits into the
`success: False` dict; otherwise the text is classified into the success
dict. -/
def process_document (input : Except String (Except String (List Char))) :
    ClassifierResult :=
  match input with
  | .error e =>
    .failure ("Processing failed: " ++ e).toList "Unknown Document" 0 []
  | .ok outcome =>
    let text := extract_text_from_pdf outcome
    if "Error".toList.isPrefixOf text then
      .failure text "Unknown Document" 0 []
    else
      let c := classify_document text
      .success c.1 c.2.1 c.2.2 text.length "OCR Pattern Matching"

end DocumentClassifier

/-! ## Helper lemmas about enumeration and the splitter grouping loop -/

theorem enumFrom_fst_le {α : Type} :
    ∀ (n : Nat) (l : List α) (p : Nat × α), p ∈ List.enumFrom n l → n ≤ p.1 := by
  intro n l
  induction l generalizing n with
  | nil => intro p hp; cases hp
  | cons a t ih =>
    intro p hp
    rcases List.mem_cons.mp hp with h | h
    · subst h; exact Nat.le_refl n
    · exact Nat.le_of_succ_le (ih (n + 1) p h)

theorem enumFrom_pairwise_fst {α : Type} (n : Nat) (l : List α) :
    (List.enumFrom n l).Pairwise (fun a b => a.1 < b.1) := by
  induction l generalizing n with
  | nil => exact List.Pairwise.nil
  | cons a t ih =>
    refine List.Pairwise.cons ?_ (ih (n + 1))
    intro p hp
    exact Nat.lt_of_succ_le (enumFrom_fst_le (n + 1) t p hp)

theorem enum_map_snd_fn {α β : Type} (l : List α) (f : α → β) :
    l.enum.map (fun ig => f ig.2) = l.map f := by
  conv_rhs => rw [← List.enum_map_snd l]
  rw [List.map_map]
  rfl

namespace IntelligentFormSplitter

theorem groupLoop_some_flatten (l : List PageData) (g : Group) :
    ((groupLoop (some g) l).map (fun gr => gr.pages)).flatten = g.pages ++ l := by
  induction l generalizing g with
  | nil => simp [groupLoop]
  | cons pd rest ih =>
    by_cases h : g.document_type = pd.document_type
    · simp [groupLoop, h, ih, addPage, List.append_assoc]
    · simp [groupLoop, h, ih, initGroup]

theorem groupLoop_none_flatten (l : List PageData) :
    ((groupLoop none l).map (fun gr => gr.pages)).flatten = l := by
  cases l with
  | nil => simp [groupLoop]
  | cons pd rest => simp [groupLoop, groupLoop_some_flatten, initGroup]

theorem groupLoop_some_infix (l : List PageData) (g : Group) (gr : Group)
    (hmem : gr ∈ groupLoop (some g) l) :
    ∃ l1 l2, l1 ++ gr.pages ++ l2 = g.pages ++ l := by
  induction l generalizing g with
  | nil =>
    simp only [groupLoop, List.mem_singleton] at hmem
    exact ⟨[], [], by simp [hmem]⟩
  | cons pd rest ih =>
    by_cases h : g.document_type = pd.document_type
    · simp only [groupLoop, if_pos h] at hmem
      obtain ⟨l1, l2, he⟩ := ih (addPage g pd) hmem
      refine ⟨l1, l2, ?_⟩
      rw [he]
      simp [addPage, List.append_assoc]
    · simp only [groupLoop, if_neg h, List.mem_cons] at hmem
      rcases hmem with h1 | h1
      · exact ⟨[], pd :: rest, by simp [h1]⟩
      · obtain ⟨l1, l2, he⟩ := ih (initGroup pd) h1
        refine ⟨g.pages ++ l1, l2, ?_⟩
        rw [List.append_assoc, List.append_assoc, ← List.append_assoc l1, he]
        simp [initGroup]

theorem groupLoop_none_infix (l : List PageData) (gr : Group)
    (hmem : gr ∈ groupLoop none l) :
    ∃ l1 l2, l1 ++ gr.pages ++ l2 = l := by
  cases l with
  | nil => cases hmem
  | cons pd rest =>
    obtain ⟨l1, l2, he⟩ := groupLoop_some_infix rest (initGroup pd) gr hmem
    exact ⟨l1, l2, by rw [he]; simp [initGroup]⟩

theorem addPage_max (g : Group) (pd : PageData)
    (h1 : g.confidence ∈ g.pages.map (fun p => p.confidence))
    (h2 : ∀ p ∈ g.pages, p.confidence ≤ g.confidence) :
    (addPage g pd).confidence ∈ (addPage g pd).pages.map (fun p => p.confidence) ∧
    ∀ p ∈ (addPage g pd).pages, p.confidence ≤ (addPage g pd).confidence := by
  constructor
  · simp only [addPage, List.map_append, List.mem_append]
    rcases max_choice g.confidence pd.confidence with h | h
    · exact Or.inl (by rw [h]; exact h1)
    · exact Or.inr (by rw [h]; simp)
  · intro p hp
    simp only [addPage, List.mem_append, List.mem_singleton] at hp
    rcases hp with h | h
    · exact le_trans (h2 p h) (le_max_left _ _)
    · rw [h]; exact le_max_right _ _

theorem groupLoop_maxConf (l : List PageData) (cur : Option Group)
    (hcur : ∀ g, cur = some g →
      g.confidence ∈ g.pages.map (fun p => p.confidence) ∧
      ∀ p ∈ g.pages, p.confidence ≤ g.confidence) :
    ∀ gr ∈ groupLoop cur l,
      gr.confidence ∈ gr.pages.map (fun p => p.confidence) ∧
      ∀ p ∈ gr.pages, p.confidence ≤ gr.confidence := by
  induction l generalizing cur with
  | nil =>
    intro gr hmem
    cases cur with
    | none => cases hmem
    | some g =>
      simp only [groupLoop, List.mem_singleton] at hmem
      exact hmem ▸ hcur g rfl
  | cons pd rest ih =>
    intro gr hmem
    cases cur with
    | none =>
      refine ih (some (initGroup pd)) ?_ gr hmem
      rintro g hg
      cases hg
      exact ⟨by simp [initGroup], by simp [initGroup]⟩
    | some g =>
      by_cases h : g.document_type = pd.document_type
      · simp only [groupLoop, if_pos h] at hmem
        refine ih (some (addPage g pd)) ?_ gr hmem
        rintro g2 hg2
        cases hg2
        obtain ⟨h1, h2⟩ := hcur g rfl
        exact addPage_max g pd h1 h2
      · simp only [groupLoop, if_neg h, List.mem_cons] at hmem
        rcases hmem with h1 | h1
        · exact h1 ▸ hcur g rfl
        · refine ih (some (initGroup pd)) ?_ gr h1
          rintro g2 hg2
          cases hg2
          exact ⟨by simp [initGroup], by simp [initGroup]⟩

theorem buildForm_pages (now i : Nat) (g : Group) :
    (buildForm now i g).pages = g.pages.map (fun p => p.page_number) := rfl

theorem mem_run_structure (now : Nat) (texts : List (List Char))
    (f : DetectedForm) (h : f ∈ group_pages_by_document_type now texts) :
    ∃ g ∈ groupLoop none (mkPageData texts),
      f.pages = g.pages.map (fun p => p.page_number) ∧ f.confidence = g.confidence := by
  unfold group_pages_by_document_type at h
  obtain ⟨ig, hig, hf⟩ := List.mem_map.mp h
  refine ⟨ig.2, ?_, ?_, ?_⟩
  · have : ig.2 ∈ (groupLoop none (mkPageData texts)).enum.map Prod.snd :=
      List.mem_map_of_mem Prod.snd hig
    rwa [List.enum_map_snd] at this
  · rw [← hf]; rfl
  · rw [← hf]; rfl

theorem mkPageData_pairwise (texts : List (List Char)) :
    (mkPageData texts).Pairwise (fun a b => a.page_number < b.page_number) := by
  unfold mkPageData
  rw [List.pairwise_map]
  have h0 : (texts.enum).Pairwise (fun a b => a.1 < b.1) := enumFrom_pairwise_fst 0 texts
  have h1 := h0.filter (fun it => !(it.2.length < 20))
  exact h1.imp (fun h => Nat.succ_lt_succ h)

end IntelligentFormSplitter

/-- Auxiliary: the enumerated grouping output, projected to page-number
lists, forgets the enumeration index. -/
theorem enum_groups_pages (L : List IntelligentFormSplitter.Group) :
    L.enum.map (fun ig => ig.2.pages.map (fun p => p.page_number))
      = L.map (fun g => g.pages.map (fun p => p.page_number)) :=
  enum_map_snd_fn L (fun g => g.pages.map (fun p => p.page_number))

/-- Auxiliary: page-number projection commutes with flattening the groups. -/
theorem groups_pages_flatten (L : List IntelligentFormSplitter.Group) :
    (L.map (fun g => g.pages.map (fun p => p.page_number))).flatten
      = ((L.map (fun g => g.pages)).flatten).map (fun p => p.page_number) := by
  induction L with
  | nil => rfl
  | cons a t ih => simp [ih]

/-! ## Claim theorems -/

/-- Claim C1 (amended): in `group_pages_by_document_type`, the concatenation of
the `pages` lists of all output records equals, in order and without
duplication, the list of page indices retained by the extraction loop (those
whose text has at least 20 characters) — not the full range `{1..N}`, because
shorter pages are skipped before grouping. -/
theorem C1_coverage_of_retained_pages (now : Nat) (texts : List (List Char)) :
    ((IntelligentFormSplitter.group_pages_by_document_type now texts).map
        (fun f => f.pages)).flatten
      = (IntelligentFormSplitter.mkPageData texts).map (fun p => p.page_number) := by
  unfold IntelligentFormSplitter.group_pages_by_document_type
  rw [List.map_map]
  show ((IntelligentFormSplitter.groupLoop none
      (IntelligentFormSplitter.mkPageData texts)).enum.map
        (fun ig => ig.2.pages.map (fun p => p.page_number))).flatten = _
  rw [enum_groups_pages, groups_pages_flatten,
    IntelligentFormSplitter.groupLoop_none_flatten]

/-- Claim C1 counterexample: a one-page input whose page text `"hi"` is shorter
than 20 characters produces no output record at all, so the union of the output
`pages` lists is empty and differs from `{1..1} = [1]` — the page is dropped,
refuting the claim that every page index `1..N` appears exactly once. -/
theorem C1_counterexample :
    ((IntelligentFormSplitter.group_pages_by_document_type 0 ["hi".toList]).map
        (fun f => f.pages)).flatten = ([] : List Nat) ∧
    ((IntelligentFormSplitter.group_pages_by_document_type 0 ["hi".toList]).map
        (fun f => f.pages)).flatten ≠ [1] := by
  constructor
  · rfl
  · decide

/-- Claim C2 (amended): every output record's `pages` list is strictly
increasing, and it is a contiguous block of the sequence of *retained* page
numbers (those surviving the 20-character filter).  Contiguity in the sense of
consecutive integers fails, because filtered-out pages leave gaps inside a
record (see the counterexample). -/
theorem C2_pages_increasing_and_block (now : Nat) (texts : List (List Char))
    (f : IntelligentFormSplitter.DetectedForm)
    (h : f ∈ IntelligentFormSplitter.group_pages_by_document_type now texts) :
    f.pages.Pairwise (· < ·) ∧
    ∃ l1 l2, l1 ++ f.pages ++ l2
      = (IntelligentFormSplitter.mkPageData texts).map (fun p => p.page_number) := by
  obtain ⟨g, hg, hpages, _⟩ :=
    IntelligentFormSplitter.mem_run_structure now texts f h
  obtain ⟨l1, l2, hinfix⟩ :=
    IntelligentFormSplitter.groupLoop_none_infix _ g hg
  have hblock : (l1.map (fun p => p.page_number)) ++ f.pages ++
      (l2.map (fun p => p.page_number))
      = (IntelligentFormSplitter.mkPageData texts).map (fun p => p.page_number) := by
    rw [hpages, ← List.map_append, ← List.map_append, hinfix]
  have hsorted : ((IntelligentFormSplitter.mkPageData texts).map
      (fun p => p.page_number)).Pairwise (· < ·) := by
    rw [List.pairwise_map]
    exact IntelligentFormSplitter.mkPageData_pairwise texts
  refine ⟨?_, ⟨_, _, hblock⟩⟩
  have hsub : f.pages.Sublist ((IntelligentFormSplitter.mkPageData texts).map
      (fun p => p.page_number)) := by
    rw [← hblock]
    exact (List.sublist_append_right (l1.map (fun p => p.page_number))
        f.pages).trans (List.sublist_append_left _ _)
  exact hsorted.sublist hsub

/-- Claim C2 witness: instantiation of `C2_pages_increasing_and_block` on a
concrete single-page input. -/
theorem C2_witness :
    (((IntelligentFormSplitter.group_pages_by_document_type 0
        ["commercial invoice invoice no: inv-001 aa".toList]).headD
          default).pages.Pairwise (· < ·)) ∧
    ∃ l1 l2, l1 ++ ((IntelligentFormSplitter.group_pages_by_document_type 0
        ["commercial invoice invoice no: inv-001 aa".toList]).headD default).pages ++ l2
      = (IntelligentFormSplitter.mkPageData
          ["commercial invoice invoice no: inv-001 aa".toList]).map
            (fun p => p.page_number) :=
  C2_pages_increasing_and_block 0 _ _ (by decide)

/-- Claim C2 counterexample: three pages whose middle page text `"hi"` is
filtered out, with identical classification on pages 1 and 3, produce a single
record with `pages = [1, 3]` — strictly increasing but not contiguous,
refuting the claim that each successive element is the previous plus one. -/
theorem C2_counterexample :
    ((IntelligentFormSplitter.group_pages_by_document_type 0
        ["commercial invoice invoice no: inv-001 aa".toList, "hi".toList,
          "commercial invoice invoice no: inv-001 aa".toList]).map
      (fun f => f.pages)) = [[1, 3]] ∧
    ¬ List.Chain' (fun a b => b = a + 1) [1, 3] := by
  refine ⟨by decide, ?_⟩
  intro h
  exact absurd (List.chain'_cons.mp h).1 (by decide)

/-- Claim C5 (amended): in `group_pages_by_document_type`, every output
record's `confidence` equals the maximum of the per-page classification
confidences of its constituent pages (the maximum is attained by some page and
dominates every page).  In the precise pipeline this only holds up to the
post-hoc `apply_intelligent_splitting` step, which scales confidences by `0.9`
(see the counterexample). -/
theorem C5_confidence_is_max (now : Nat) (texts : List (List Char))
    (f : IntelligentFormSplitter.DetectedForm)
    (h : f ∈ IntelligentFormSplitter.group_pages_by_document_type now texts) :
    ∃ g ∈ IntelligentFormSplitter.groupLoop none
        (IntelligentFormSplitter.mkPageData texts),
      f.confidence = g.confidence ∧
      f.pages = g.pages.map (fun p => p.page_number) ∧
      g.confidence ∈ g.pages.map (fun p => p.confidence) ∧
      ∀ p ∈ g.pages, p.confidence ≤ g.confidence := by
  obtain ⟨g, hg, hpages, hconf⟩ :=
    IntelligentFormSplitter.mem_run_structure now texts f h
  obtain ⟨h1, h2⟩ := IntelligentFormSplitter.groupLoop_maxConf
    (IntelligentFormSplitter.mkPageData texts) none (by intro g hg; cases hg) g hg
  exact ⟨g, hg, hconf, hpages, h1, h2⟩

/-- Claim C5 witness: instantiation of `C5_confidence_is_max` on a concrete
single-page input. -/
theorem C5_witness :
    ∃ g ∈ IntelligentFormSplitter.groupLoop none
        (IntelligentFormSplitter.mkPageData
          ["commercial invoice invoice no: inv-001 ok".toList]),
      ((IntelligentFormSplitter.group_pages_by_document_type 0
          ["commercial invoice invoice no: inv-001 ok".toList]).headD
            default).confidence = g.confidence ∧
      ((IntelligentFormSplitter.group_pages_by_document_type 0
          ["commercial invoice invoice no: inv-001 ok".toList]).headD
            default).pages = g.pages.map (fun p => p.page_number) ∧
      g.confidence ∈ g.pages.map (fun p => p.confidence) ∧
      ∀ p ∈ g.pages, p.confidence ≤ g.confidence :=
  C5_confidence_is_max 0 _ _ (by decide)

/-- Claim C5 counterexample: four identical `"commercial invoice data"` pages
run through the full precise pipeline form one four-page document of
confidence `0.9`; `apply_intelligent_splitting` then cuts it into four one-page
records of confidence `0.81`, while the per-page classification confidence of
each constituent page is `0.9` — so the record confidence is not the maximum
(nor between minimum and maximum) of its pages' confidences. -/
theorem C5_counterexample :
    (PreciseDocumentAnalyzer.analyze_document_precisely
        (List.replicate 4 "commercial invoice data".toList)).map
      (fun d => (d.confidence, d.pages))
      = [(810, [1]), (810, [2]), (810, [3]), (810, [4])] ∧
    (PreciseDocumentAnalyzer.classify_document_content
        "commercial invoice data".toList).2 = 900 ∧
    (810 : ℕ) ≠ 900 := by decide

/-- Claim C4 (amended): the strong-confidence gate on type changes exists only
in the precise pipeline (`should_start_new_document` starts a new run whenever
the type differs and the page confidence exceeds `0.7`); the fast pipeline
starts a new run on any type change to a known type with no confidence gate at
all, and the splitter starts a new group on every type change regardless of
confidence. -/
theorem C4_type_change_rules :
    (∀ (d : PreciseDocumentAnalyzer.CurrentDoc)
        (info : PreciseDocumentAnalyzer.PageInfo),
      info.type ≠ d.type → 700 < info.confidence →
      PreciseDocumentAnalyzer.should_start_new_document (some d) info = true) ∧
    (∀ prev cur : FastDocumentAnalyzer.FastPage,
      FastDocumentAnalyzer.classify_document_type (lowerL prev.text)
          ≠ FastDocumentAnalyzer.classify_document_type (lowerL cur.text) →
      FastDocumentAnalyzer.classify_document_type (lowerL cur.text) ≠ "Unknown" →
      FastDocumentAnalyzer.detect_document_boundary prev cur = true) ∧
    (∀ (g : IntelligentFormSplitter.Group) (pd : IntelligentFormSplitter.PageData)
        (rest : List IntelligentFormSplitter.PageData),
      g.document_type ≠ pd.document_type →
      IntelligentFormSplitter.groupLoop (some g) (pd :: rest)
        = g :: IntelligentFormSplitter.groupLoop
            (some (IntelligentFormSplitter.initGroup pd)) rest) := by
  refine ⟨?_, ?_, ?_⟩
  · intro d info h1 h2
    simp only [PreciseDocumentAnalyzer.should_start_new_document]
    rw [if_pos ⟨h1, h2⟩]
  · intro prev cur h1 h2
    simp only [FastDocumentAnalyzer.detect_document_boundary]
    rw [if_pos ⟨h1, h2⟩]
  · intro g pd rest h
    simp [IntelligentFormSplitter.groupLoop, h]

/-- Claim C4 witness: instantiation of `C4_type_change_rules` on concrete
inputs for all three pipelines. -/
theorem C4_witness :
    PreciseDocumentAnalyzer.should_start_new_document
        (some { type := "Commercial Invoice", pages := [1], texts := [[]],
                confidence := 900 })
        { type := "Bill of Lading", text := [], confidence := 900, page_num := 2 }
      = true ∧
    FastDocumentAnalyzer.detect_document_boundary
        { page_number := 1, text := "commercial invoice seller data".toList,
          text_length := 30 }
        { page_number := 2, text := "bill of lading shipper data".toList,
          text_length := 27 }
      = true ∧
    IntelligentFormSplitter.groupLoop
        (some { document_type := "Commercial Invoice",
                pages := [{ page_number := 1, text := [],
                            document_type := "Commercial Invoice",
                            confidence := 900, text_length := 0 }],
                confidence := 900 })
        [{ page_number := 2, text := [], document_type := "Bill of Lading",
           confidence := 600, text_length := 0 }]
      = [{ document_type := "Commercial Invoice",
           pages := [{ page_number := 1, text := [],
                       document_type := "Commercial Invoice",
                       confidence := 900, text_length := 0 }],
           confidence := 900 },
         { document_type := "Bill of Lading",
           pages := [{ page_number := 2, text := [],
                       document_type := "Bill of Lading",
                       confidence := 600, text_length := 0 }],
           confidence := 600 }] := by
  refine ⟨C4_type_change_rules.1 _ _ (by decide) (by decide),
    C4_type_change_rules.2.1 _ _ (by decide) (by decide), ?_⟩
  rw [C4_type_change_rules.2.2 _ _ _ (by decide)]
  decide

/-- Claim C4 counterexample: in the splitter, a page classified to the
fallback type at confidence `0.6` — which does not exceed any strong threshold
in the `0.6`–`0.7` band — still starts a new run after a `Commercial Invoice`
page, refuting "a new run is started if and only if page i's classification
confidence exceeds the strong threshold". -/
theorem C4_counterexample :
    IntelligentFormSplitter.classify_document_type "zzzz qqqq xxxx yyyy www".toList
      = ("Trade Finance Document", 600) ∧
    (IntelligentFormSplitter.group_pages_by_document_type 0
        ["commercial invoice invoice no: inv-001 aa".toList,
          "zzzz qqqq xxxx yyyy www".toList]).map (fun f => (f.form_type, f.pages))
      = [("Commercial Invoice", [1]), ("Trade Finance Document", [2])] := by decide

/-- Claim C7 (amended): the soft run-cap exists only in the precise pipeline:
once the current document has more than five pages, any page with confidence
above `0.8` starts a new run.  The splitter has no run cap at all (see the
counterexample). -/
theorem C7_runcap (d : PreciseDocumentAnalyzer.CurrentDoc)
    (info : PreciseDocumentAnalyzer.PageInfo)
    (hlen : 5 < d.pages.length) (hconf : 800 < info.confidence) :
    PreciseDocumentAnalyzer.should_start_new_document (some d) info = true := by
  simp only [PreciseDocumentAnalyzer.should_start_new_document]
  split
  · rfl
  split
  · rfl
  rw [if_pos ⟨hlen, hconf⟩]

/-- Claim C7 witness: instantiation of `C7_runcap` at a six-page current
document and a high-confidence page. -/
theorem C7_witness :
    PreciseDocumentAnalyzer.should_start_new_document
        (some { type := "Commercial Invoice", pages := [1, 2, 3, 4, 5, 6],
                texts := [[]], confidence := 900 })
        { type := "Commercial Invoice", text := [], confidence := 900,
          page_num := 7 }
      = true :=
  C7_runcap _ _ (by decide) (by decide)

/-- Claim C7 counterexample: twelve identical high-confidence
`Commercial Invoice` pages with no identifiers anywhere produce a single
twelve-page record in the splitter — no cap of 5–10 pages forces a second
record, refuting the claim for this pipeline. -/
theorem C7_counterexample :
    (IntelligentFormSplitter.group_pages_by_document_type 0
        (List.replicate 12 "commercial invoice aa".toList)).map (fun f => f.pages)
      = [[1, 2, 3, 4, 5, 6, 7, 8, 9, 10, 11, 12]] ∧
    IntelligentFormSplitter.classify_document_type "commercial invoice aa".toList
      = ("Commercial Invoice", 900) ∧
    FastDocumentAnalyzer.extract_document_numbers "commercial invoice aa".toList
      = [] := by decide

/-- Auxiliary: a non-empty list has `isEmpty = false`. -/
theorem ne_nil_isEmpty {α : Type} (l : List α) (h : l ≠ []) : l.isEmpty = false := by
  cases l with
  | nil => exact absurd rfl h
  | cons a t => rfl

/-- Claim C3 (amended): the identifier-divergence rule holds in the fast and
precise pipelines — whenever both compared identifier sets are non-empty and
share no element, the boundary decision is `true` (a new run starts), even if
the classified type is unchanged.  The splitter ignores identifiers entirely
(see the counterexample). -/
theorem C3_identifier_divergence :
    (∀ prev cur : FastDocumentAnalyzer.FastPage,
      FastDocumentAnalyzer.extract_document_numbers (lowerL prev.text) ≠ [] →
      FastDocumentAnalyzer.extract_document_numbers (lowerL cur.text) ≠ [] →
      ((FastDocumentAnalyzer.extract_document_numbers (lowerL prev.text)).any
        (fun num => (FastDocumentAnalyzer.extract_document_numbers
          (lowerL cur.text)).contains num)) = false →
      FastDocumentAnalyzer.detect_document_boundary prev cur = true) ∧
    (∀ (d : PreciseDocumentAnalyzer.CurrentDoc)
        (info : PreciseDocumentAnalyzer.PageInfo),
      PreciseDocumentAnalyzer.extract_document_numbers
          (List.intercalate " ".toList d.texts) ≠ [] →
      PreciseDocumentAnalyzer.extract_document_numbers info.text ≠ [] →
      ((PreciseDocumentAnalyzer.extract_document_numbers
          (List.intercalate " ".toList d.texts)).any
        (fun num => (PreciseDocumentAnalyzer.extract_document_numbers
          info.text).contains num)) = false →
      PreciseDocumentAnalyzer.should_start_new_document (some d) info = true) := by
  constructor
  · intro prev cur h1 h2 h3
    simp only [FastDocumentAnalyzer.detect_document_boundary]
    split
    · rfl
    split
    · rfl
    rw [ne_nil_isEmpty _ h1, ne_nil_isEmpty _ h2, h3]
    rfl
  · intro d info h1 h2 h3
    simp only [PreciseDocumentAnalyzer.should_start_new_document]
    split
    · rfl
    rw [ne_nil_isEmpty _ h1, ne_nil_isEmpty _ h2, h3]
    rfl

/-- Claim C3 witness: instantiation of `C3_identifier_divergence` on concrete
pages carrying identifiers `inv-001` and `inv-002`. -/
theorem C3_witness :
    FastDocumentAnalyzer.detect_document_boundary
        { page_number := 1, text := "commercial invoice invoice no: inv-001 aa".toList,
          text_length := 41 }
        { page_number := 2, text := "commercial invoice invoice no: inv-002 aa".toList,
          text_length := 41 }
      = true ∧
    PreciseDocumentAnalyzer.should_start_new_document
        (some { type := "Commercial Invoice", pages := [1],
                texts := ["commercial invoice invoice no: inv-001 aa".toList],
                confidence := 950 })
        { type := "Commercial Invoice",
          text := "commercial invoice invoice no: inv-002 aa".toList,
          confidence := 950, page_num := 2 }
      = true :=
  ⟨C3_identifier_divergence.1 _ _ (by decide) (by decide) (by decide),
    C3_identifier_divergence.2 _ _ (by decide) (by decide) (by decide)⟩

/-- Claim C3 counterexample: two consecutive pages both classified
`Commercial Invoice`, carrying the non-empty disjoint identifier sets
`{inv-001}` and `{inv-002}`, are kept in a single run by the splitter — no new
run starts at page 2, refuting the claim for this pipeline. -/
theorem C3_counterexample :
    FastDocumentAnalyzer.extract_document_numbers
        "commercial invoice invoice no: inv-001 aa".toList = ["inv-001".toList] ∧
    FastDocumentAnalyzer.extract_document_numbers
        "commercial invoice invoice no: inv-002 aa".toList = ["inv-002".toList] ∧
    (IntelligentFormSplitter.group_pages_by_document_type 0
        ["commercial invoice invoice no: inv-001 aa".toList,
          "commercial invoice invoice no: inv-002 aa".toList]).map (fun f => f.pages)
      = [[1, 2]] := by decide

/-- Auxiliary: lowering a whitespace character keeps it unchanged. -/
theorem toLower_space (c : Char) (h : isPySpace c = true) : Char.toLower c = c := by
  simp only [isPySpace, Bool.or_eq_true, beq_iff_eq] at h
  rcases h with ((((h | h) | h) | h) | h) | h <;> rw [h] <;> decide

/-- Auxiliary: lower-casing preserves all-whitespace texts. -/
theorem lowerL_space (t : List Char) (h : ∀ c ∈ t, isPySpace c = true) :
    ∀ c ∈ lowerL t, isPySpace c = true := by
  intro c hc
  obtain ⟨d, hd, hdc⟩ := List.mem_map.mp hc
  rw [← hdc, toLower_space d (h d hd)]
  exact h d hd

/-- Auxiliary: a needle containing a non-whitespace character is not a prefix
of an all-whitespace haystack. -/
theorem isPrefixOf_space (needle : List Char) :
    ∀ (hay : List Char), (∃ c ∈ needle, isPySpace c = false) →
      (∀ c ∈ hay, isPySpace c = true) → needle.isPrefixOf hay = false := by
  induction needle with
  | nil => intro hay hne _; obtain ⟨c, hc, _⟩ := hne; cases hc
  | cons d ds ih =>
    intro hay hne hsp
    cases hay with
    | nil => rfl
    | cons c cs =>
      show (d == c && ds.isPrefixOf cs) = false
      by_cases hdc : d = c
      · subst hdc
        have hd : isPySpace d = true := hsp d (List.mem_cons_self d cs)
        obtain ⟨x, hx, hxs⟩ := hne
        rcases List.mem_cons.mp hx with h | h
        · subst h; rw [hd] at hxs; cases hxs
        · rw [ih cs ⟨x, h, hxs⟩ (fun y hy => hsp y (List.mem_cons_of_mem _ hy))]
          simp
      · have : (d == c) = false := beq_false_of_ne hdc
        rw [this]
        simp

/-- Auxiliary: a needle containing a non-whitespace character never occurs in
an all-whitespace haystack. -/
theorem containsSub_space (needle : List Char) :
    ∀ (hay : List Char), (∃ c ∈ needle, isPySpace c = false) →
      (∀ c ∈ hay, isPySpace c = true) → containsSub needle hay = false := by
  intro hay
  induction hay with
  | nil =>
    intro hne _
    obtain ⟨c, hc, _⟩ := hne
    cases needle with
    | nil => cases hc
    | cons d ds => rfl
  | cons c cs ih =>
    intro hne hsp
    show (needle.isPrefixOf (c :: cs) || containsSub needle cs) = false
    rw [isPrefixOf_space needle (c :: cs) hne hsp,
      ih hne (fun y hy => hsp y (List.mem_cons_of_mem _ hy))]
    rfl

/-- Auxiliary: a fold whose step fixes every accumulator returns its seed. -/
theorem foldl_const {α β : Type} (l : List α) (step : β → α → β) (b : β)
    (h : ∀ acc a, a ∈ l → step acc a = acc) : l.foldl step b = b := by
  induction l generalizing b with
  | nil => rfl
  | cons a t ih =>
    rw [List.foldl_cons, h b a (List.mem_cons_self a t)]
    exact ih b (fun acc x hx => h acc x (List.mem_cons_of_mem _ hx))

/-- Claim C6 (amended): on empty or whitespace-only text both classifiers with
confidences return the fallback type `"Trade Finance Document"` at their
respective floor confidence — `0.6` for the splitter and `0.3` for the precise
analyzer — not confidence `0`; being total functions they return a
classification for every text (including texts shorter than 10–20 characters)
without raising. -/
theorem C6_degraded_input (t : List Char) (h : ∀ c ∈ t, isPySpace c = true) :
    IntelligentFormSplitter.classify_document_type t
      = ("Trade Finance Document", 600) ∧
    PreciseDocumentAnalyzer.classify_document_content t
      = ("Trade Finance Document", 300) := by
  have hsp : ∀ c ∈ lowerL t, isPySpace c = true := lowerL_space t h
  constructor
  · simp only [IntelligentFormSplitter.classify_document_type]
    refine foldl_const _ _ _ ?_
    intro acc p hp
    have hnons : ∀ kw ∈ p.1, ∃ c ∈ kw.toList, isPySpace c = false := by
      have hall : ∀ p ∈ IntelligentFormSplitter.classification_patterns,
          ∀ kw ∈ p.1, ∃ c ∈ kw.toList, isPySpace c = false := by decide
      exact hall p hp
    have hzero : (p.1.filter
        (fun kw => containsSub kw.toList (lowerL t))).length = 0 := by
      rw [List.filter_eq_nil_iff.mpr ?_]
      · rfl
      · intro kw hkw
        rw [containsSub_space kw.toList (lowerL t) (hnons kw hkw) hsp]
        exact Bool.false_ne_true
    simp only [hzero]
    rfl
  · simp only [PreciseDocumentAnalyzer.classify_document_content]
    refine foldl_const _ _ _ ?_
    intro acc p hp
    have hnons : ∀ kw ∈ p.1, ∃ c ∈ kw.toList, isPySpace c = false := by
      have hall : ∀ p ∈ PreciseDocumentAnalyzer.patterns,
          ∀ kw ∈ p.1, ∃ c ∈ kw.toList, isPySpace c = false := by decide
      exact hall p hp
    have hzero : (p.1.filter
        (fun kw => containsSub kw.toList (lowerL t))).length = 0 := by
      rw [List.filter_eq_nil_iff.mpr ?_]
      · rfl
      · intro kw hkw
        rw [containsSub_space kw.toList (lowerL t) (hnons kw hkw) hsp]
        exact Bool.false_ne_true
    simp only [hzero]
    rfl

/-- Claim C6 witness: instantiation of `C6_degraded_input` at the empty text. -/
theorem C6_witness :
    IntelligentFormSplitter.classify_document_type []
      = ("Trade Finance Document", 600) ∧
    PreciseDocumentAnalyzer.classify_document_content []
      = ("Trade Finance Document", 300) :=
  C6_degraded_input [] (by intro c hc; cases hc)

/-- Claim C6 counterexample: on empty text the splitter classifier returns the
fallback type at confidence `0.6` (600 thousandths), not confidence `0` as the
claim states. -/
theorem C6_counterexample :
    IntelligentFormSplitter.classify_document_type []
      = ("Trade Finance Document", 600) ∧ (600 : ℕ) ≠ 0 := by decide

/-- Claim C8 (amended): the fast extractor satisfies the spec contract exactly
— its result has the same members as the set of distinct lower-cased captures
of the three reference-number regexes with first-pattern bound `{3,15}` — and
on absence of matches both sides are the empty set.  The precise extractor
deviates: its first pattern caps captures at 12 characters (see the
counterexample). -/
theorem C8_extraction_contract (t x : List Char) :
    x ∈ FastDocumentAnalyzer.extract_document_numbers t ↔ x ∈ identifierContract t :=
  Iff.rfl

/-- Claim C8 counterexample: on `"no: abcdefghij123"` the contract (and the
fast extractor) captures the 13-character identifier `abcdefghij123`, while the
precise extractor's `{3,12}` bound truncates the capture to `abcdefghij12` —
so the precise extractor does not return the contract's capture set. -/
theorem C8_counterexample :
    PreciseDocumentAnalyzer.extract_document_numbers "no: abcdefghij123".toList
      = ["abcdefghij12".toList] ∧
    identifierContract "no: abcdefghij123".toList = ["abcdefghij123".toList] ∧
    ("abcdefghij12".toList : List Char) ≠ "abcdefghij123".toList := by decide

/-- Claim C9 (amended): the splitter's output is a pure function of the page
texts except for the record `id` fields, which embed the wall-clock sample
`int(time.time() * 1000)`: stripping `id`, two runs with different clock values
agree on every remaining field.  (In the fast and precise pipelines the
identifier displayed in `form_type` additionally depends on Python set
iteration order across processes.) -/
theorem C9_deterministic_modulo_id (n1 n2 : Nat) (texts : List (List Char)) :
    (IntelligentFormSplitter.group_pages_by_document_type n1 texts).map
        IntelligentFormSplitter.stripId
      = (IntelligentFormSplitter.group_pages_by_document_type n2 texts).map
          IntelligentFormSplitter.stripId := by
  unfold IntelligentFormSplitter.group_pages_by_document_type
  rw [List.map_map, List.map_map]
  rfl

/-- Claim C9 counterexample: two runs of the splitter on the same one-page
input with different clock samples produce different outputs — the `id` field
of the only record is `form_1_0` in one run and `form_1_1` in the other — so
the pipeline output is not a pure function of the page texts alone. -/
theorem C9_counterexample :
    IntelligentFormSplitter.group_pages_by_document_type 0
        ["commercial invoice aa".toList]
      ≠ IntelligentFormSplitter.group_pages_by_document_type 1
          ["commercial invoice aa".toList] := by decide

/-- Claim C10: the top-level entry points never raise.  Every exception —
one raised by the collaborator, or, in the splitter, the deterministic
`ValueError("document closed")` raised by reading `page_count` after
`close()` — is caught by the wrapping `try/except` and converted into a
result dict carrying an error indication (`status: "error"` with a message in
the splitter, an `error` key in the fast analyzer, `success: False` with an
error string in the document classifier), and every non-exceptional path also
returns a result dict: the entry points are total. -/
theorem C10_entry_points_never_raise (now : Nat) (e : String)
    (texts : List (List Char)) :
    IntelligentFormSplitter.group_pages_entry now (Except.error e)
      = IntelligentFormSplitter.SplitterResult.failure e
          ("Failed to process document: " ++ e) ∧
    IntelligentFormSplitter.group_pages_entry now
        (Except.ok { page_texts := texts, is_closed := false })
      = IntelligentFormSplitter.SplitterResult.failure "document closed"
          ("Failed to process document: document closed") ∧
    FastDocumentAnalyzer.analyze_real_document (Except.error e)
      = FastDocumentAnalyzer.FastResult.failure e ∧
    (∃ tp forms cnt, FastDocumentAnalyzer.analyze_real_document (Except.ok texts)
      = FastDocumentAnalyzer.FastResult.success tp forms cnt) ∧
    DocumentClassifier.process_document (Except.error e)
      = DocumentClassifier.ClassifierResult.failure
          ("Processing failed: " ++ e).toList "Unknown Document" 0 [] ∧
    DocumentClassifier.process_document (Except.ok (Except.error e))
      = DocumentClassifier.ClassifierResult.failure
          ("Error extracting text: " ++ e).toList "Unknown Document" 0 [] ∧
    DocumentClassifier.process_document (Except.ok (Except.ok "   ".toList))
      = DocumentClassifier.ClassifierResult.failure
          "Error: No text content could be extracted from PDF".toList
          "Unknown Document" 0 [] ∧
    (∃ dt conf fields tl pm, DocumentClassifier.process_document
        (Except.ok (Except.ok "commercial invoice from seller: x".toList))
      = DocumentClassifier.ClassifierResult.success dt conf fields tl pm) :=
  ⟨rfl, rfl, rfl, ⟨_, _, _, rfl⟩, rfl, rfl, rfl, ⟨_, _, _, _, _, rfl⟩⟩
